import Mathlib

/-!
# Editor session core of `client/src/Components/Editor/Editor.jsx`

A shallow embedding of the `Editor` component: its React state, the socket
event handlers registered by the mount effect, the outbound intents exposed to
the UI, and the effect's start / cleanup.  Every effect the component has on
the outside (toasts, navigation, emitted socket messages, window listeners,
uncaught errors) is recorded in an explicit `World` value, so that handlers are
plain functions `World → World`.  Of several state writes made by one handler
run the last one stands.  The clipboard action `handleCopyId` is not part of
the model.
-/

namespace CoderHub

/-! ## Data model -/

/-- JavaScript truthiness of an optional string: `undefined`/`null` (`none`)
and the empty string are falsy, every other string is truthy. -/
def truthy : Option String → Bool
  | some s => s != ""
  | none => false

/-- The expression `x || null` on an optional string. -/
def orNull (x : Option String) : Option String :=
  if truthy x then x else none

/-- The value of an object field that holds a string in the protocol: the
string, or `undefined` (the field is missing), or `null`.  Equality of two such
values is JavaScript's `===`, which tells `null` from `undefined`. -/
inductive JsField where
  | undefined
  | null
  | str (s : String)
  deriving DecidableEq, Repr

/-- JavaScript truthiness of a field value: only a non-empty string is truthy. -/
def JsField.truthy : JsField → Bool
  | .str s => s != ""
  | _ => false

/-- A participant object as found in `clients`, `joinedUser` and `leftUser`. -/
structure Client where
  socketId : JsField
  username : JsField
  joinedAt : JsField
  deriving DecidableEq, Repr

/-- Payload of the inbound `updateMembers` event.  `clients = none` stands for a
payload without a `clients` array. -/
structure MembersPayload where
  clients : Option (List Client)
  joinedUser : Option Client
  leftUser : Option Client
  admin : Option String
  isLocked : Bool
  deriving DecidableEq, Repr

/-- A call of `toast(...)`.  All calls in the component use `duration: 3000`,
`isClosable: false`, `position: 'top'`; only these two fields vary. -/
structure Toast where
  description : String
  status : String
  deriving DecidableEq, Repr

/-- Outbound socket messages (`socketRef.current.emit`). -/
inductive Emit where
  | join (roomId : String) (username : JsField)
  | editorChange (roomId : String) (value : String)
  | languageChange (roomId : String) (language : String)
  | lockRoom (roomId : String)
  | unlockRoom (roomId : String)
  deriving DecidableEq, Repr

/-- The six `useState` cells of the component (lines 18-23). -/
structure EditorState where
  clients : Option (List Client)
  language : String
  theme : String
  value : String
  isLocked : Bool
  admin : Option String
  deriving DecidableEq, Repr

/-- The socket object held in `socketRef.current`. -/
structure Socket where
  connected : Bool
  listeners : List String
  deriving DecidableEq, Repr

/-- Everything the component can read or change. -/
structure World where
  ui : EditorState
  socketRef : Option Socket
  /-- Listeners currently registered on `window` for `beforeunload`. -/
  beforeunload : List Nat
  /-- Number of calls of `initSocket()`. -/
  initSocketCalls : Nat
  /-- Messages emitted on the socket, oldest first. -/
  sent : List Emit
  /-- Toasts fired, oldest first. -/
  toasts : List Toast
  /-- Calls of `navigate(path)`, oldest first. -/
  navigations : List String
  /-- Number of handler runs that ended in an uncaught `TypeError`. -/
  errors : Nat
  /-- Number of `new Date()` constructions so far. -/
  tick : Nat
  deriving DecidableEq, Repr

/-- Contents of `location.state`. -/
structure LocationState where
  username : JsField
  deriving DecidableEq, Repr

/-- What the component receives from its surroundings: route parameter,
`location.state`, the runtime's `String.prototype.toUpperCase`, and the clock
(`clock n` is the ISO string produced by the `n`-th `new Date()`). -/
structure Env where
  roomId : String
  locationState : Option LocationState
  toUpperCase : String → String
  clock : Nat → String

/-- The expression `location.state?.username`: `undefined` without a
`location.state`. -/
def Env.localUsername (env : Env) : JsField :=
  match env.locationState with
  | none => .undefined
  | some s => s.username

/-- The initial React state (arguments of `useState`). -/
def initialState : EditorState :=
  { clients := some [], language := "javascript", theme := "hc-black",
    value := "", isLocked := false, admin := none }

/-- The world before the component is mounted. -/
def initialWorld : World :=
  { ui := initialState, socketRef := none, beforeunload := [], initSocketCalls := 0,
    sent := [], toasts := [], navigations := [], errors := 0, tick := 0 }

/-! ## Small world updates -/

def World.toast (w : World) (description status : String) : World :=
  { w with toasts := w.toasts ++ [{ description := description, status := status }] }

def World.navigate (w : World) (path : String) : World :=
  { w with navigations := w.navigations ++ [path] }

/-- The call `socketRef.current?.emit(msg)`: nothing happens without a socket. -/
def World.emit (w : World) (msg : Emit) : World :=
  match w.socketRef with
  | some _ => { w with sent := w.sent ++ [msg] }
  | none => w

def World.setClients (w : World) (cs : Option (List Client)) : World :=
  { w with ui := { w.ui with clients := cs } }

def World.setValue (w : World) (v : String) : World :=
  { w with ui := { w.ui with value := v } }

def World.setLanguage (w : World) (l : String) : World :=
  { w with ui := { w.ui with language := l } }

def World.setTheme (w : World) (t : String) : World :=
  { w with ui := { w.ui with theme := t } }

def World.setIsLocked (w : World) (b : Bool) : World :=
  { w with ui := { w.ui with isLocked := b } }

def World.setAdmin (w : World) (a : Option String) : World :=
  { w with ui := { w.ui with admin := a } }

/-- An uncaught `TypeError` ends the running handler. -/
def World.throwTypeError (w : World) : World :=
  { w with errors := w.errors + 1 }

/-! ## The `updateMembers` handler (lines 56-96) -/

/-- The `clients.map(client => (...client, joinedAt: client.joinedAt || new Date().toISOString()))`
of lines 58-61; the clock is read only for clients whose `joinedAt` is falsy.
Returns the new array and the advanced clock position. -/
def stampClients (clock : Nat → String) : Nat → List Client → List Client × Nat
  | t, [] => ([], t)
  | t, c :: cs =>
    if c.joinedAt.truthy then
      ((stampClients clock t cs).1.cons c, (stampClients clock t cs).2)
    else
      ((stampClients clock (t + 1) cs).1.cons { c with joinedAt := .str (clock t) },
       (stampClients clock (t + 1) cs).2)

/-- Lines 57-79: the `if (joinedUser)` block.  `Except.error w` is the world at
the point where a `TypeError` is thrown: by `clients.map` without a clients
array, or by `joinedUser.username.toUpperCase()` when the username differs
from the local one (`!==`) and is not a string. -/
def joinBranch (env : Env) (p : MembersPayload) (w : World) : Except World World :=
  match p.joinedUser with
  | none => .ok w
  | some ju =>
    match p.clients with
    | none => .error w
    | some cs =>
      let stamped := stampClients env.clock w.tick cs
      let updatedClients := stamped.1 ++ [{ ju with joinedAt := .str (env.clock stamped.2) }]
      let w1 := ({ w with tick := stamped.2 + 1 }).setClients (some updatedClients)
      if ju.username ≠ env.localUsername then
        match ju.username with
        | .str name => .ok (w1.toast (env.toUpperCase name ++ " has joined the room") "info")
        | _ => .error w1
      else .ok w1

/-- Lines 81-91: the `if (leftUser)` block. -/
def leaveBranch (env : Env) (p : MembersPayload) (w : World) : Except World World :=
  match p.leftUser with
  | none => .ok w
  | some lu =>
    match p.clients with
    | none => .error w
    | some cs =>
      let updatedClients := cs.filter (fun client => client.socketId ≠ lu.socketId)
      let w1 := w.setClients (some updatedClients)
      match lu.username with
      | .str name => .ok (w1.toast (env.toUpperCase name ++ " has left the room") "info")
      | _ => .error w1

/-- Lines 93-95: the three unconditional writes. -/
def finalWrites (p : MembersPayload) (w : World) : World :=
  ((w.setClients p.clients).setIsLocked p.isLocked).setAdmin (orNull p.admin)

/-- The handler body as a computation that may throw. -/
def updateMembersBody (env : Env) (p : MembersPayload) (w : World) : Except World World :=
  match joinBranch env p w with
  | .error e => .error e
  | .ok w1 =>
    match leaveBranch env p w1 with
    | .error e => .error e
    | .ok w2 => .ok (finalWrites p w2)

/-- The `updateMembers` handler: a thrown error is recorded and the state
writes made before it stay. -/
def onUpdateMembers (env : Env) (p : MembersPayload) (w : World) : World :=
  match updateMembersBody env p w with
  | .ok w1 => w1
  | .error e => e.throwTypeError

/-- Whether the handler runs to its last line on this payload. -/
def completes (env : Env) (p : MembersPayload) (w : World) : Bool :=
  match updateMembersBody env p w with
  | .ok _ => true
  | .error _ => false

/-! ## The other inbound handlers (lines 98-126) -/

/-- Handler of `editorUpdate` (lines 98-101). -/
def onEditorUpdate (value : String) (language : Option String) (w : World) : World :=
  match language with
  | some l => if truthy (some l) then (w.setValue value).setLanguage l else w.setValue value
  | none => w.setValue value

/-- Handler of `languageUpdate` (lines 103-105). -/
def onLanguageUpdate (language : String) (w : World) : World :=
  w.setLanguage language

/-- Handler of `roomLockedStatus` (lines 107-126). -/
def onRoomLockedStatus (isLocked : Bool) (w : World) : World :=
  if isLocked then
    (w.setIsLocked isLocked).toast "The room has been locked." "warning"
  else
    (w.setIsLocked isLocked).toast "The room has been unlocked." "info"

/-- The `handleError` closure of lines 36-46 (`connect_error`, `connect_failed`). -/
def handleError (w : World) : World :=
  (w.toast "No internet connection" "error").navigate "/"

/-! ## Outbound intents (lines 157-215, 250) -/

/-- Lines 157-160. -/
def handleValue (env : Env) (value : String) (w : World) : World :=
  (w.setValue value).emit (.editorChange env.roomId value)

/-- Lines 162-165. -/
def onSelect (env : Env) (selectedLanguage : String) (w : World) : World :=
  (w.setLanguage selectedLanguage).emit (.languageChange env.roomId selectedLanguage)

/-- Lines 167-169. -/
def handleSelectTheme (selectedTheme : String) (w : World) : World :=
  w.setTheme selectedTheme

/-- Lines 204-207. -/
def handleLeave (w : World) : World :=
  w.navigate "/"

/-- Lines 209-211. -/
def handleLockRoom (env : Env) (w : World) : World :=
  w.emit (.lockRoom env.roomId)

/-- Lines 213-215. -/
def handleUnlockRoom (env : Env) (w : World) : World :=
  w.emit (.unlockRoom env.roomId)

/-- Line 250: the `onFileChange` callback handed to `FilePanel`. -/
def onFileChange (content : String) (w : World) : World :=
  w.setValue content

/-! ## Mounting: render, effect start, socket initialisation, cleanup -/

/-- What a render of the component returns. -/
inductive View where
  | navigate (path : String)
  | editor
  deriving DecidableEq, Repr

/-- Lines 153-155 and 216-303: `<Navigate to="/" />` when `location.state` is
falsy, the editor layout otherwise. -/
def render (env : Env) : View :=
  match env.locationState with
  | none => .navigate "/"
  | some _ => .editor

/-- The synchronous part of the mount effect (lines 26-33 and 141): the
`beforeunload` listener `listener` is registered and `init()` runs up to its
first `await`, that is, it calls `initSocket()`. -/
def effectStart (listener : Nat) (w : World) : World :=
  { w with
    beforeunload := if listener ∈ w.beforeunload then w.beforeunload
                    else w.beforeunload ++ [listener],
    initSocketCalls := w.initSocketCalls + 1 }

/-- The rest of `init` once the promise of `initSocket()` settles (lines 35-138):
with a socket, the handlers are registered and `join` is emitted; without one
(rejection), the `catch` block runs. -/
def initSettled (env : Env) (result : Option Socket) (w : World) : World :=
  match result with
  | some sock =>
    { w with
      socketRef := some { sock with listeners := sock.listeners ++
        ["connect_error", "connect_failed", "updateMembers", "editorUpdate",
         "languageUpdate", "roomLockedStatus"] },
      sent := w.sent ++ [.join env.roomId env.localUsername] }
  | none => (w.toast "Try Again" "error").navigate "/"

/-- The effect cleanup (lines 143-149): with a socket in `socketRef.current` it
is disconnected, its listeners are removed and the `beforeunload` listener is
taken off `window`; without one nothing is done. -/
def cleanup (listener : Nat) (w : World) : World :=
  match w.socketRef with
  | some _ =>
    { w with
      socketRef := some { connected := false, listeners := [] },
      beforeunload := w.beforeunload.filter (fun l => l ≠ listener) }
  | none => w

/-- Mounting the component: React renders it and then runs the effect, whose
`useEffect` call (line 25) comes before the early return of line 153 and is
therefore reached on every render. -/
def mount (env : Env) (listener : Nat) (w : World) : View × World :=
  (render env, effectStart listener w)

/-! ## Event sequences -/

/-- The inbound socket events and the UI callbacks of the mounted component. -/
inductive Event where
  | updateMembers (p : MembersPayload)
  | editorUpdate (value : String) (language : Option String)
  | languageUpdate (language : String)
  | roomLockedStatus (isLocked : Bool)
  | connectError
  | handleValue (value : String)
  | onSelect (selectedLanguage : String)
  | handleSelectTheme (selectedTheme : String)
  | handleLeave
  | handleLockRoom
  | handleUnlockRoom
  | onFileChange (content : String)

/-- One event handled to completion. -/
def step (env : Env) (w : World) : Event → World
  | .updateMembers p => onUpdateMembers env p w
  | .editorUpdate v l => onEditorUpdate v l w
  | .languageUpdate l => onLanguageUpdate l w
  | .roomLockedStatus b => onRoomLockedStatus b w
  | .connectError => handleError w
  | .handleValue v => handleValue env v w
  | .onSelect l => onSelect env l w
  | .handleSelectTheme t => handleSelectTheme t w
  | .handleLeave => handleLeave w
  | .handleLockRoom => handleLockRoom env w
  | .handleUnlockRoom => handleUnlockRoom env w
  | .onFileChange c => onFileChange c w

/-- Events are handled one at a time, in order of arrival. -/
def run (env : Env) (w : World) (evs : List Event) : World :=
  evs.foldl (step env) w

/-- The document content after one more event when only an outbound
`editorChange` (a local edit) or an inbound `editorUpdate` carries content. -/
def channelChange (cur : String) : Event → String
  | .handleValue v => v
  | .editorUpdate v _ => v
  | _ => cur

/-- The content carried by the most recent outbound `editorChange` or inbound
`editorUpdate` among `evs`, and `init` when there is none. -/
def lastChannelContent (init : String) (evs : List Event) : String :=
  evs.foldl channelChange init

/-! ## Concrete data used in the examples -/

/-- Upper-casing of ASCII letters. -/
def asciiUpper (s : String) : String :=
  String.mk (s.data.map Char.toUpper)

/-- The session of "alice" in room "R1". -/
def envAlice : Env :=
  { roomId := "R1", locationState := some { username := .str "alice" },
    toUpperCase := asciiUpper,
    clock := fun n => if n = 0 then "2024-01-01T00:00:00.000Z" else "2024-01-01T00:00:00.001Z" }

/-- A visit of room "R1" without `location.state`. -/
def envNoIdentity : Env :=
  { envAlice with locationState := none }

/-- A freshly connected socket. -/
def freshSocket : Socket :=
  { connected := true, listeners := [] }

/-- The world of alice's session once the socket is open. -/
def openWorld : World :=
  initSettled envAlice (some freshSocket) (effectStart 0 initialWorld)

def alice : Client :=
  { socketId := .str "s1", username := .str "alice", joinedAt := .undefined }

def bob : Client :=
  { socketId := .str "s2", username := .str "bob", joinedAt := .undefined }

def carol : Client :=
  { socketId := .str "s3", username := .str "carol", joinedAt := .undefined }

def emptyAdminPayload : MembersPayload :=
  { clients := some [alice], joinedUser := none, leftUser := none, admin := some "",
    isLocked := false }

def bobJoinsPayload : MembersPayload :=
  { clients := some [alice], joinedUser := some bob, leftUser := none, admin := none,
    isLocked := false }

def carolLeavesPayload : MembersPayload :=
  { clients := some [alice, bob], joinedUser := none, leftUser := some carol,
    admin := some "s1", isLocked := true }

/-- A leave notice that also carries a `joinedUser` without a username. -/
def mixedPayload : MembersPayload :=
  { clients := some [alice],
    joinedUser := some { socketId := .str "s2", username := .undefined, joinedAt := .undefined },
    leftUser := some carol, admin := none, isLocked := false }

/-- An event in which carol leaves and bob joins. -/
def swapPayload : MembersPayload :=
  { clients := some [alice, bob], joinedUser := some bob, leftUser := some carol,
    admin := some "s1", isLocked := false }

/-- A join notice whose `joinedUser` has `username: null`. -/
def nullNamePayload : MembersPayload :=
  { clients := some [alice],
    joinedUser := some { socketId := .str "s2", username := .null, joinedAt := .undefined },
    leftUser := none, admin := none, isLocked := false }

/-! ## Auxiliary notions for the proofs -/

/-- The world a possibly throwing computation ends in. -/
def resultWorld : Except World World → World
  | .ok w => w
  | .error e => e

/-- Two worlds that differ at most in roster, lock flag, administrator, toasts
and clock position. -/
def SameOutside (a b : World) : Prop :=
  a.socketRef = b.socketRef ∧ a.sent = b.sent ∧ a.ui.value = b.ui.value ∧
  a.ui.language = b.ui.language ∧ a.ui.theme = b.ui.theme ∧
  a.beforeunload = b.beforeunload ∧ a.initSocketCalls = b.initSocketCalls ∧
  a.navigations = b.navigations ∧ a.errors = b.errors

/-- The "has left the room" toast the leave block fires on payload `p`, if any. -/
def leaveNotice (env : Env) (p : MembersPayload) : List Toast :=
  match p.leftUser with
  | none => []
  | some lu =>
    match lu.username with
    | .str name => [{ description := env.toUpperCase name ++ " has left the room", status := "info" }]
    | _ => []

/-! ## Auxiliary facts about the `updateMembers` handler -/

theorem SameOutside.refl (a : World) : SameOutside a a := by
  simp [SameOutside]

theorem SameOutside.trans {a b c : World} (h1 : SameOutside a b) (h2 : SameOutside b c) :
    SameOutside a c := by
  obtain ⟨a1, a2, a3, a4, a5, a6, a7, a8, a9⟩ := h1
  obtain ⟨b1, b2, b3, b4, b5, b6, b7, b8, b9⟩ := h2
  exact ⟨a1.trans b1, a2.trans b2, a3.trans b3, a4.trans b4, a5.trans b5, a6.trans b6,
    a7.trans b7, a8.trans b8, a9.trans b9⟩

theorem joinBranch_frame (env : Env) (p : MembersPayload) (w : World) :
    SameOutside (resultWorld (joinBranch env p w)) w := by
  unfold joinBranch
  split
  · exact SameOutside.refl w
  · split
    · exact SameOutside.refl w
    · dsimp only
      split
      · split <;> simp [resultWorld, SameOutside, World.setClients, World.toast]
      · simp [resultWorld, SameOutside, World.setClients]

theorem leaveBranch_frame (env : Env) (p : MembersPayload) (w : World) :
    SameOutside (resultWorld (leaveBranch env p w)) w := by
  unfold leaveBranch
  split
  · exact SameOutside.refl w
  · split
    · exact SameOutside.refl w
    · dsimp only
      split <;> simp [resultWorld, SameOutside, World.setClients, World.toast]

theorem finalWrites_frame (p : MembersPayload) (w : World) :
    SameOutside (finalWrites p w) w := by
  simp [finalWrites, SameOutside, World.setClients, World.setIsLocked, World.setAdmin]

theorem updateMembersBody_frame (env : Env) (p : MembersPayload) (w : World) :
    SameOutside (resultWorld (updateMembersBody env p w)) w := by
  have hj := joinBranch_frame env p w
  unfold updateMembersBody
  cases h1 : joinBranch env p w with
  | error e => rw [h1] at hj; exact hj
  | ok w1 =>
    rw [h1] at hj
    have hl := leaveBranch_frame env p w1
    cases h2 : leaveBranch env p w1 with
    | error e =>
      rw [h2] at hl
      simp only [h2]
      exact hl.trans hj
    | ok w2 =>
      rw [h2] at hl
      simp only [h2]
      exact (finalWrites_frame p w2).trans (hl.trans hj)

/-- The handler touches neither the socket, nor the sent messages, nor the
document. -/
theorem onUpdateMembers_frame (env : Env) (p : MembersPayload) (w : World) :
    (onUpdateMembers env p w).socketRef = w.socketRef ∧
    (onUpdateMembers env p w).sent = w.sent ∧
    (onUpdateMembers env p w).ui.value = w.ui.value := by
  have h := updateMembersBody_frame env p w
  unfold onUpdateMembers
  cases h1 : updateMembersBody env p w with
  | error e =>
    rw [h1] at h
    exact ⟨h.1, h.2.1, h.2.2.1⟩
  | ok w1 =>
    rw [h1] at h
    exact ⟨h.1, h.2.1, h.2.2.1⟩

/-- When the body runs to its end, the three final writes decide roster, lock
flag and administrator. -/
theorem updateMembersBody_ok (env : Env) (p : MembersPayload) (w w1 : World)
    (h : updateMembersBody env p w = .ok w1) :
    w1.ui.clients = p.clients ∧ w1.ui.isLocked = p.isLocked ∧ w1.ui.admin = orNull p.admin := by
  unfold updateMembersBody at h
  cases h1 : joinBranch env p w with
  | error e => simp [h1] at h
  | ok wj =>
    cases h2 : leaveBranch env p wj with
    | error e => simp [h1, h2] at h
    | ok wl =>
      simp only [h1, h2, Except.ok.injEq] at h
      subst h
      simp [finalWrites, World.setClients, World.setIsLocked, World.setAdmin]

/-! ## C1: snapshot authority -/

/-- C1 (as amended): on every `updateMembers` payload on which the handler
completes, and from every prior state, the roster afterwards is the payload's
`clients` exactly, the lock flag is the payload's `isLocked`, and the
administrator is the payload's `admin` when that is truthy and null otherwise
(absent, null or the empty string), whether or not `joinedUser` or `leftUser`
is present. -/
theorem updateMembers_snapshot_authority (env : Env) (p : MembersPayload) (w : World)
    (h : completes env p w = true) :
    (onUpdateMembers env p w).ui.clients = p.clients ∧
    (onUpdateMembers env p w).ui.isLocked = p.isLocked ∧
    (onUpdateMembers env p w).ui.admin = (if truthy p.admin then p.admin else none) := by
  unfold completes at h
  unfold onUpdateMembers
  cases h1 : updateMembersBody env p w with
  | error e => simp [h1] at h
  | ok w1 => exact updateMembersBody_ok env p w w1 h1

/-- Witness for C1: carol's leave notice handled in alice's open session. -/
theorem updateMembers_snapshot_authority_witness :
    completes envAlice carolLeavesPayload openWorld = true ∧
    (onUpdateMembers envAlice carolLeavesPayload openWorld).ui.clients = some [alice, bob] ∧
    (onUpdateMembers envAlice carolLeavesPayload openWorld).ui.isLocked = true ∧
    (onUpdateMembers envAlice carolLeavesPayload openWorld).ui.admin = some "s1" :=
  ⟨by decide, updateMembers_snapshot_authority envAlice carolLeavesPayload openWorld (by decide)⟩

/-- C1 as stated fails: with `admin: ""` the handler completes and stores null,
not the payload's administrator. -/
theorem updateMembers_admin_empty_string :
    completes envAlice emptyAdminPayload openWorld = true ∧
    (onUpdateMembers envAlice emptyAdminPayload openWorld).ui.admin = none ∧
    (onUpdateMembers envAlice emptyAdminPayload openWorld).ui.admin ≠ emptyAdminPayload.admin := by
  decide

/-! ## C2: the join branch and the final roster write -/

/-- C2 (evaluation at the failing input): bob's join notice with
`clients = [alice]`.  The join block builds `[alice, bob]`, both with a
`joinedAt` timestamp, but after the handler the roster is the payload's
`[alice]`: bob is not in it and alice carries no `joinedAt`. -/
theorem updateMembers_join_roster_overwritten :
    (resultWorld (joinBranch envAlice bobJoinsPayload openWorld)).ui.clients =
      some [{ alice with joinedAt := .str "2024-01-01T00:00:00.000Z" },
            { bob with joinedAt := .str "2024-01-01T00:00:00.001Z" }] ∧
    (onUpdateMembers envAlice bobJoinsPayload openWorld).errors = openWorld.errors ∧
    (onUpdateMembers envAlice bobJoinsPayload openWorld).ui.clients =
      some [{ socketId := .str "s1", username := .str "alice", joinedAt := .undefined }] := by
  decide

/-! ## C3: mounting without an identity -/

/-- C3 (evaluation at the failing input): mounted without `location.state`, the
component renders the redirect to "/", and its effect still calls
`initSocket()`; once the socket is there, `join` is emitted with an undefined
username. -/
theorem mount_without_identity_opens_channel :
    (mount envNoIdentity 0 initialWorld).1 = View.navigate "/" ∧
    (mount envNoIdentity 0 initialWorld).2.initSocketCalls = 1 ∧
    (initSettled envNoIdentity (some freshSocket) (mount envNoIdentity 0 initialWorld).2).sent =
      [Emit.join "R1" JsField.undefined] := by
  decide

/-! ## C4: the `beforeunload` listener -/

/-- Without a socket in `socketRef.current` the cleanup does nothing. -/
theorem cleanup_iterate_no_socket (listener n : Nat) (w : World) (h : w.socketRef = none) :
    (cleanup listener)^[n] w = w := by
  induction n with
  | zero => rfl
  | succ k ih =>
    rw [Function.iterate_succ_apply]
    have hc : cleanup listener w = w := by simp [cleanup, h]
    rw [hc, ih]

/-- With a socket, a second cleanup changes nothing any more. -/
theorem cleanup_idempotent (listener : Nat) (w : World) :
    cleanup listener (cleanup listener w) = cleanup listener w := by
  unfold cleanup
  cases h : w.socketRef with
  | none => simp [h]
  | some s => simp [List.filter_filter]

/-- C4 (evaluation at the failing input): in a session whose `initSocket()` has
not produced a socket (still pending, or rejected), the listener registered at
session start is still registered after any number of cleanups; when a socket
was produced, the first cleanup deregisters it. -/
theorem cleanup_without_socket_keeps_listener (n : Nat) :
    ((cleanup 0)^[n] (effectStart 0 initialWorld)).beforeunload = [0] ∧
    ((cleanup 0)^[n] (initSettled envAlice none (effectStart 0 initialWorld))).beforeunload = [0] ∧
    (cleanup 0 openWorld).beforeunload = [] := by
  refine ⟨?_, ?_, by decide⟩
  · rw [cleanup_iterate_no_socket 0 n _ (by decide)]
    decide
  · rw [cleanup_iterate_no_socket 0 n _ (by decide)]
    decide

/-! ## C6: inbound document events -/

/-- C6: for every state, the handlers of inbound `editorUpdate` and
`languageUpdate` emit nothing: the list of sent messages is unchanged, and the
only change at all is the write of the received content and (truthy) language
into local state. -/
theorem inbound_document_events_emit_nothing (value language : String)
    (optLanguage : Option String) (w : World) :
    (onEditorUpdate value optLanguage w).sent = w.sent ∧
    (onLanguageUpdate language w).sent = w.sent ∧
    onEditorUpdate value optLanguage w =
      { w with ui := { w.ui with
          value := value,
          language := if truthy optLanguage then optLanguage.getD w.ui.language
                      else w.ui.language } } ∧
    onLanguageUpdate language w = { w with ui := { w.ui with language := language } } := by
  cases optLanguage with
  | none => simp [onEditorUpdate, onLanguageUpdate, World.setValue, World.setLanguage, truthy]
  | some l =>
    by_cases hl : truthy (some l) = true
    · simp [onEditorUpdate, onLanguageUpdate, World.setValue, World.setLanguage, hl]
    · simp [onEditorUpdate, onLanguageUpdate, World.setValue, World.setLanguage, hl]

/-! ## C8: lock round trip -/

/-- C8: from any state whose lock flag is unlocked, `roomLockedStatus` with
`isLocked: true` followed by `isLocked: false` passes through locked and ends
in the starting state, having fired exactly the two toasts "The room has been
locked." and "The room has been unlocked.", in this order. -/
theorem lock_round_trip (w : World) (h : w.ui.isLocked = false) :
    (onRoomLockedStatus true w).ui.isLocked = true ∧
    (onRoomLockedStatus false (onRoomLockedStatus true w)).ui = w.ui ∧
    onRoomLockedStatus false (onRoomLockedStatus true w) =
      { w with toasts := w.toasts ++
          [{ description := "The room has been locked.", status := "warning" },
           { description := "The room has been unlocked.", status := "info" }] } := by
  obtain ⟨ui, a, b, c, d, e, f, g, i⟩ := w
  obtain ⟨cl, la, th, va, lk, ad⟩ := ui
  simp only at h
  subst h
  simp [onRoomLockedStatus, World.setIsLocked, World.toast]

/-- Witness for C8: the round trip in alice's open session. -/
theorem lock_round_trip_witness :
    openWorld.ui.isLocked = false ∧
    (onRoomLockedStatus true openWorld).ui.isLocked = true ∧
    (onRoomLockedStatus false (onRoomLockedStatus true openWorld)).ui = openWorld.ui ∧
    onRoomLockedStatus false (onRoomLockedStatus true openWorld) =
      { openWorld with toasts := openWorld.toasts ++
          [{ description := "The room has been locked.", status := "warning" },
           { description := "The room has been unlocked.", status := "info" }] } :=
  ⟨by decide, lock_round_trip openWorld (by decide)⟩

/-! ## C9: lock and unlock requests -/

/-- C9: `handleLockRoom` and `handleUnlockRoom` change nothing but the list of
sent messages (so no React state and no toast): with a socket each appends
exactly one message, `lockRoom` resp. `unlockRoom` with the room id, and
without a socket each leaves the world as it is. -/
theorem lock_requests_only_send (env : Env) (w : World) :
    handleLockRoom env w =
      { w with sent := if w.socketRef.isSome then w.sent ++ [Emit.lockRoom env.roomId]
                       else w.sent } ∧
    handleUnlockRoom env w =
      { w with sent := if w.socketRef.isSome then w.sent ++ [Emit.unlockRoom env.roomId]
                       else w.sent } ∧
    (handleLockRoom env w).ui = w.ui ∧ (handleUnlockRoom env w).ui = w.ui ∧
    (handleLockRoom env w).toasts = w.toasts ∧ (handleUnlockRoom env w).toasts = w.toasts := by
  obtain ⟨ui, sock, a, b, c, d, e, f, g⟩ := w
  cases sock <;> simp [handleLockRoom, handleUnlockRoom, World.emit]

/-! ## C7: join notifications -/

theorem joinBranch_toasts (env : Env) (p : MembersPayload) (w : World) (cs : List Client)
    (ju : Client) (name : String) (hc : p.clients = some cs) (hj : p.joinedUser = some ju)
    (hn : ju.username = .str name) :
    ∃ w1, joinBranch env p w = .ok w1 ∧
      w1.toasts = w.toasts ++
        (if JsField.str name = env.localUsername then []
         else [{ description := env.toUpperCase name ++ " has joined the room",
                 status := "info" }]) := by
  unfold joinBranch
  simp only [hj, hc, hn]
  by_cases hself : JsField.str name = env.localUsername
  · simp [hself, World.setClients]
  · simp [hself, World.setClients, World.toast]

theorem leaveBranch_toasts (env : Env) (p : MembersPayload) (w : World) (cs : List Client)
    (hc : p.clients = some cs) :
    (resultWorld (leaveBranch env p w)).toasts = w.toasts ++ leaveNotice env p := by
  unfold leaveBranch leaveNotice
  cases hl : p.leftUser with
  | none => simp [resultWorld]
  | some lu =>
    cases hn : lu.username with
    | undefined => simp [hc, hn, resultWorld, World.setClients]
    | null => simp [hc, hn, resultWorld, World.setClients]
    | str name => simp [hc, hn, resultWorld, World.setClients, World.toast]

/-- C7: for every `updateMembers` event carrying a `joinedUser` with a string
username and a clients list, the toasts fired by the handler are: no "has joined
the room" toast when the joined username equals the local session's username,
and exactly one, with text `<USERNAME in upper case> has joined the room`,
otherwise; the only other toast that can follow is the "has left the room" one
of a `leftUser` carried by the same event. -/
theorem join_notification_not_for_self (env : Env) (p : MembersPayload) (w : World)
    (cs : List Client) (ju : Client) (name : String) (hc : p.clients = some cs)
    (hj : p.joinedUser = some ju) (hn : ju.username = .str name) :
    (onUpdateMembers env p w).toasts =
      w.toasts ++
        (if JsField.str name = env.localUsername then []
         else [{ description := env.toUpperCase name ++ " has joined the room",
                 status := "info" }]) ++
        leaveNotice env p := by
  obtain ⟨w1, h1, ht1⟩ := joinBranch_toasts env p w cs ju name hc hj hn
  have hl := leaveBranch_toasts env p w1 cs hc
  unfold onUpdateMembers updateMembersBody
  simp only [h1]
  cases h2 : leaveBranch env p w1 with
  | error e =>
    rw [h2] at hl
    simp only [resultWorld] at hl
    simp [World.throwTypeError, hl, ht1]
  | ok w2 =>
    rw [h2] at hl
    simp only [resultWorld] at hl
    simp [finalWrites, World.setClients, World.setIsLocked, World.setAdmin, hl, ht1]

/-- Witness for C7: bob joins alice's session; one toast "BOB has joined the
room" fires. -/
theorem join_notification_not_for_self_witness :
    bobJoinsPayload.clients = some [alice] ∧ bobJoinsPayload.joinedUser = some bob ∧
    bob.username = .str "bob" ∧
    (onUpdateMembers envAlice bobJoinsPayload openWorld).toasts =
      [{ description := "BOB has joined the room", status := "info" }] :=
  ⟨rfl, rfl, rfl,
    join_notification_not_for_self envAlice bobJoinsPayload openWorld [alice] bob "bob" rfl rfl rfl⟩

/-! ## C10: handling a leave notice twice -/

theorem joinBranch_ok (env : Env) (p : MembersPayload) (w : World) (cs : List Client)
    (hc : p.clients = some cs)
    (hj : ∀ ju, p.joinedUser = some ju →
      (∃ n, ju.username = .str n) ∨ ju.username = env.localUsername) :
    ∃ w1, joinBranch env p w = .ok w1 := by
  unfold joinBranch
  cases hju : p.joinedUser with
  | none => exact ⟨w, rfl⟩
  | some ju =>
    simp only [hc]
    by_cases hself : ju.username = env.localUsername
    · simp [hself]
    · rcases hj ju hju with ⟨n, hn⟩ | heq
      · simp [hn] at hself ⊢
        simp [hself]
      · exact absurd heq hself

theorem leaveBranch_ok (env : Env) (p : MembersPayload) (w : World) (cs : List Client)
    (lu : Client) (name : String) (hc : p.clients = some cs) (hl : p.leftUser = some lu)
    (hn : lu.username = .str name) :
    ∃ w1, leaveBranch env p w = .ok w1 := by
  unfold leaveBranch
  simp [hl, hc, hn]

/-- A well-formed leave notice is handled to the end, without an error. -/
theorem updateMembers_leave_completes (env : Env) (p : MembersPayload) (w : World)
    (cs : List Client) (lu : Client) (name : String) (hc : p.clients = some cs)
    (hl : p.leftUser = some lu) (hn : lu.username = .str name)
    (hj : ∀ ju, p.joinedUser = some ju →
      (∃ n, ju.username = .str n) ∨ ju.username = env.localUsername) :
    ∃ w1, updateMembersBody env p w = .ok w1 ∧ onUpdateMembers env p w = w1 ∧
      w1.errors = w.errors := by
  obtain ⟨wj, h1⟩ := joinBranch_ok env p w cs hc hj
  obtain ⟨wl, h2⟩ := leaveBranch_ok env p wj cs lu name hc hl hn
  have hb : updateMembersBody env p w = .ok (finalWrites p wl) := by
    unfold updateMembersBody
    simp [h1, h2]
  have hf := updateMembersBody_frame env p w
  rw [hb] at hf
  refine ⟨finalWrites p wl, hb, ?_, hf.2.2.2.2.2.2.2.2⟩
  unfold onUpdateMembers
  simp [hb]

/-- C10 (as amended): for every state and every `updateMembers` event carrying
a `leftUser` with a clients list and a string username, and whose `joinedUser`,
if it carries one too, has a string username or one strictly equal (`===`) to
the local username, neither the first nor the second handling raises an error,
and after the second handling roster, lock flag and administrator are exactly as
after the first: the roster is the payload's clients list both times. -/
theorem leave_notice_twice (env : Env) (p : MembersPayload) (w : World)
    (cs : List Client) (lu : Client) (name : String) (hc : p.clients = some cs)
    (hl : p.leftUser = some lu) (hn : lu.username = .str name)
    (hj : ∀ ju, p.joinedUser = some ju →
      (∃ n, ju.username = .str n) ∨ ju.username = env.localUsername) :
    (onUpdateMembers env p w).errors = w.errors ∧
    (onUpdateMembers env p (onUpdateMembers env p w)).errors =
      (onUpdateMembers env p w).errors ∧
    (onUpdateMembers env p (onUpdateMembers env p w)).ui.clients =
      (onUpdateMembers env p w).ui.clients ∧
    (onUpdateMembers env p (onUpdateMembers env p w)).ui.isLocked =
      (onUpdateMembers env p w).ui.isLocked ∧
    (onUpdateMembers env p (onUpdateMembers env p w)).ui.admin =
      (onUpdateMembers env p w).ui.admin ∧
    (onUpdateMembers env p (onUpdateMembers env p w)).ui.clients = some cs := by
  obtain ⟨w1, hb1, ho1, he1⟩ := updateMembers_leave_completes env p w cs lu name hc hl hn hj
  obtain ⟨w2, hb2, ho2, he2⟩ := updateMembers_leave_completes env p w1 cs lu name hc hl hn hj
  obtain ⟨c1, l1, a1⟩ := updateMembersBody_ok env p w w1 hb1
  obtain ⟨c2, l2, a2⟩ := updateMembersBody_ok env p w1 w2 hb2
  rw [ho1, ho2]
  exact ⟨he1, he2, c2.trans c1.symm, l2.trans l1.symm, a2.trans a1.symm, c2.trans hc⟩

/-- Witness for C10: an event in which carol leaves and bob joins, handled twice
in the session of alice. -/
theorem leave_notice_twice_witness :
    swapPayload.clients = some [alice, bob] ∧
    swapPayload.leftUser = some carol ∧ carol.username = .str "carol" ∧
    swapPayload.joinedUser = some bob ∧ bob.username = .str "bob" ∧
    (onUpdateMembers envAlice swapPayload openWorld).errors = openWorld.errors ∧
    (onUpdateMembers envAlice swapPayload
      (onUpdateMembers envAlice swapPayload openWorld)).errors =
      (onUpdateMembers envAlice swapPayload openWorld).errors ∧
    (onUpdateMembers envAlice swapPayload
      (onUpdateMembers envAlice swapPayload openWorld)).ui.clients = some [alice, bob] :=
  ⟨rfl, rfl, rfl, rfl, rfl,
    (leave_notice_twice envAlice swapPayload openWorld [alice, bob] carol "carol"
      rfl rfl rfl (fun ju h => Or.inl ⟨"bob", by cases h; rfl⟩)).1,
    (leave_notice_twice envAlice swapPayload openWorld [alice, bob] carol "carol"
      rfl rfl rfl (fun ju h => Or.inl ⟨"bob", by cases h; rfl⟩)).2.1,
    (leave_notice_twice envAlice swapPayload openWorld [alice, bob] carol "carol"
      rfl rfl rfl (fun ju h => Or.inl ⟨"bob", by cases h; rfl⟩)).2.2.2.2.2⟩

/-- C10 as stated fails: an event that carries a well-formed `leftUser` and a
clients list, and besides a `joinedUser` without a username, raises a
`TypeError` in the join block the first time it is handled and again the
second time. -/
theorem leave_notice_twice_with_bad_join :
    mixedPayload.clients = some [alice] ∧ mixedPayload.leftUser = some carol ∧
    carol.username = .str "carol" ∧
    (onUpdateMembers envAlice mixedPayload openWorld).errors = openWorld.errors + 1 ∧
    (onUpdateMembers envAlice mixedPayload (onUpdateMembers envAlice mixedPayload openWorld)).errors
      = (onUpdateMembers envAlice mixedPayload openWorld).errors + 1 := by
  decide

/-- The join block tells `null` from `undefined`: a `joinedUser` whose username
is `null`, in a session without local username, differs from it (`!==`) and
makes `toUpperCase` throw. -/
theorem join_null_username_throws :
    envNoIdentity.localUsername = JsField.undefined ∧
    (onUpdateMembers envNoIdentity nullNamePayload openWorld).errors = openWorld.errors + 1 := by
  decide

/-! ## C5: the document value -/

/-- C5 (evaluation at the failing input): with the channel open, a local edit
"a" sends `editorChange` with "a"; the following `onFileChange` call of the file
panel sets the document to the file content and sends nothing, so the value is
"file" while the most recent `editorChange` or `editorUpdate` carried "a". -/
theorem file_change_breaks_channel_invariant :
    openWorld.socketRef.isSome = true ∧
    (run envAlice openWorld [.handleValue "a"]).sent =
      [Emit.join "R1" (.str "alice"), Emit.editorChange "R1" "a"] ∧
    (run envAlice openWorld [.handleValue "a", .onFileChange "file"]).ui.value = "file" ∧
    lastChannelContent "" [.handleValue "a", .onFileChange "file"] = "a" ∧
    (run envAlice openWorld [.handleValue "a", .onFileChange "file"]).sent =
      [Emit.join "R1" (.str "alice"), Emit.editorChange "R1" "a"] ∧
    (run envAlice openWorld [.handleValue "a", .onFileChange "file"]).ui.value ≠
      lastChannelContent "" [.handleValue "a", .onFileChange "file"] := by
  decide

end CoderHub
